import Mathlib

/-!
# Verification of the deltective table-state / health-analysis engine

Shallow embedding of the core of `deltective` (a Delta Lake table inspector):

* `src/deltective/inspector.py` — `DeltaTableInspector.get_statistics`,
  `_detect_advanced_features`, `_analyze_write_patterns` (timeline heuristics);
* `src/deltective/insights.py` — `DeltaTableAnalyzer` rule engine.

Modelling conventions:

* Python `float` arithmetic is modelled by exact rational arithmetic (`ℚ`);
* Python `datetime` values are modelled as rational Unix seconds; epoch-millis
  timestamps from the transaction log are `Int` and converted by `/ 1000`
  exactly as `datetime.fromtimestamp(ts / 1000)` does;
* `timedelta.days` is modelled by the floor of the elapsed seconds over 86400,
  which is what Python's normalised timedelta yields (also for negatives);
* Python dicts are modelled as association lists (insertion order preserved,
  keys unique for dicts built by the source);
* the wall-clock sample taken by `datetime.now()` inside
  `DeltaTableAnalyzer._analyze_vacuum_history` is made an explicit `now`
  parameter of the embedded `analyze`;
* fallible code (`int(...)` on a configuration string) returns `Except`;
* `list.sort(key=...)` (Python's stable Timsort) is modelled by Mathlib's
  stable `List.insertionSort` on the same key — a stable sort by a key is
  unique, so the choice of stable algorithm is immaterial.
-/

namespace Deltective

/-! ## Data model (`inspector.py` dataclasses and `deltalake` inputs) -/

/-- `FileInfo` dataclass: one active data file. -/
structure FileInfo where
  path : String
  size_bytes : Int
  modification_time : ℚ
  partition_values : List (String × String)
deriving Repr, DecidableEq

/-- One entry of `DeltaTable.history()` (a Python dict; the fields below are
the keys the source reads, with the defaults of its `.get` calls folded in:
`version` defaults to 0 and `timestamp` to 0 when absent, `operation` is
`None`-able, `operationParameters`/`operationMetrics` default to empty). -/
structure CommitEntry where
  version : Int
  timestamp : Int
  operation : Option String
  operationParameters : List (String × String)
  operationMetrics : List (String × Int)
deriving Repr, DecidableEq

/-- `DeltaTable.metadata()` as consumed by the source. -/
structure TableMetadata where
  id : Option String
  name : Option String
  description : Option String
  created_time : Option Int
  partition_columns : List String
  configuration : List (String × String)
deriving Repr, DecidableEq

/-- `DeltaTable.protocol()` as consumed by the source. -/
structure Protocol where
  min_reader_version : Int
  min_writer_version : Int
  reader_features : Option (List String)
  writer_features : Option (List String)
deriving Repr, DecidableEq

/-- One row of the flattened `get_add_actions` record batch: `size_bytes` may
be null (`or 0` in the source), `partition.*` columns may hold nulls. -/
structure AddAction where
  path : String
  size_bytes : Option Int
  modification_time : Int
  partitions : List (String × Option String)
deriving Repr, DecidableEq

/-- The `last_operation` summary dict built by `get_statistics`. -/
structure LastOperation where
  operation : Option String
  timestamp : ℚ
  parameters : List (String × String)
  metrics : List (String × Int)
deriving Repr, DecidableEq

/-- `TableStatistics` dataclass (the `metadata` sub-dict of id / name /
description / created_time is flattened into `metadata_*` fields). -/
structure TableStatistics where
  table_path : String
  version : Int
  num_files : Nat
  total_size_bytes : Int
  schema : List (String × String)
  partition_columns : List String
  num_rows : Option Int
  files : List FileInfo
  metadata_id : Option String
  metadata_name : Option String
  metadata_description : Option String
  metadata_created_time : Option Int
  total_versions : Nat
  oldest_version : Int
  min_reader_version : Int
  min_writer_version : Int
  reader_features : List String
  writer_features : List String
  created_time : Option ℚ
  last_operation : Option LastOperation
  last_vacuum : Option ℚ
deriving Repr, DecidableEq

/-- `Insight` dataclass. The numeric interpolations inside `description`
strings are not reproduced (no claim depends on them); severity, category
and title are modelled exactly. -/
structure Insight where
  severity : String
  category : String
  title : String
  description : String
  recommendation : String
deriving Repr, DecidableEq

/-! ## `DeltaTableInspector.get_statistics` -/

/-- The per-file loop of `get_statistics`: builds `files_info` and
accumulates `total_size` (`size = ... or 0`, so a null size counts as 0). -/
def collectFiles : List AddAction → List FileInfo × Int
  | [] => ([], 0)
  | a :: rest =>
    let size := a.size_bytes.getD 0
    let fi : FileInfo :=
      { path := a.path
        size_bytes := size
        modification_time := (a.modification_time : ℚ) / 1000
        partition_values := a.partitions.filterMap
          (fun p => p.2.map (fun v => (p.1, v))) }
    let r := collectFiles rest
    (fi :: r.1, size + r.2)

/-- `DeltaTableInspector.get_statistics`, as a pure function of the data the
inspector reads from the `deltalake` table handle: current version, schema,
metadata, the flattened add-actions manifest, protocol, and the full history
(newest first, as `DeltaTable.history()` returns it). -/
def get_statistics (table_path : String) (version : Int)
    (schema : List (String × String)) (metadata : Option TableMetadata)
    (add_actions : List AddAction) (protocol : Protocol)
    (history : List CommitEntry) : TableStatistics :=
  let partition_columns := (metadata.map (·.partition_columns)).getD []
  let collected := collectFiles add_actions
  let files_info := collected.1
  let total_size := collected.2
  let total_versions := history.length
  -- `if metadata and metadata.created_time:` — 0 is falsy in Python
  let created_time : Option ℚ :=
    match metadata with
    | none => none
    | some m =>
      match m.created_time with
      | none => none
      | some t => if t = 0 then none else some ((t : ℚ) / 1000)
  let last_operation : Option LastOperation :=
    match history with
    | [] => none
    | e :: _ => some
        { operation := e.operation
          timestamp := (e.timestamp : ℚ) / 1000
          parameters := e.operationParameters
          metrics := e.operationMetrics }
  let last_vacuum : Option ℚ :=
    (history.find? (fun e => e.operation == some "VACUUM")).map
      (fun e => (e.timestamp : ℚ) / 1000)
  let oldest_version : Int :=
    match history with
    | [] => 0
    | _ => ((history.map (·.version)).min?).getD 0
  { table_path := table_path
    version := version
    num_files := files_info.length
    total_size_bytes := total_size
    schema := schema
    partition_columns := partition_columns
    num_rows := none
    files := files_info
    metadata_id := (metadata.map (·.id)).getD none
    metadata_name := (metadata.map (·.name)).getD none
    metadata_description := (metadata.map (·.description)).getD none
    metadata_created_time := (metadata.map (·.created_time)).getD none
    total_versions := total_versions
    oldest_version := oldest_version
    min_reader_version := protocol.min_reader_version
    min_writer_version := protocol.min_writer_version
    reader_features := protocol.reader_features.getD []
    writer_features := protocol.writer_features.getD []
    created_time := created_time
    last_operation := last_operation
    last_vacuum := last_vacuum }

/-! ## Python string primitives

The Python string operations the source uses (`str.strip`, `str.replace`,
`str.startswith`, `int(...)`, string comparison) are modelled structurally
over the character list of the string. -/

/-- `str.strip()` on a character list: drop whitespace from both ends. -/
def stripChars (l : List Char) : List Char :=
  ((l.dropWhile Char.isWhitespace).reverse.dropWhile Char.isWhitespace).reverse

/-- `str.strip()`. -/
def pyStrip (s : String) : String := ⟨stripChars s.data⟩

/-- `str.startswith(pre)`. -/
def pyStartsWith (s pre : String) : Bool := pre.data.isPrefixOf s.data

/-- Numeric value of a digit string, as Python `int` parsing accumulates it. -/
def digitsVal (l : List Char) : Nat :=
  l.foldl (fun n c => n * 10 + (c.toNat - 48)) 0

/-- Python `int(s)` on a string: strip surrounding whitespace, optional
sign, then decimal digits; anything else raises `ValueError`, modelled as
`none`. (Digit-group underscores accepted by CPython are not modelled; no
claim depends on them.) -/
def pyInt (s : String) : Option Int :=
  let t := stripChars s.data
  let signed : Int × List Char :=
    match t with
    | '-' :: rest => (-1, rest)
    | '+' :: rest => (1, rest)
    | _ => (1, t)
  if signed.2 ≠ [] ∧ signed.2.all Char.isDigit then
    some (signed.1 * (digitsVal signed.2 : Int))
  else none

/-- `str.replace(pat, rep)`: replace non-overlapping occurrences left to
right. Fuel-based structural recursion; fuel = length of the subject, which
suffices because every step consumes at least one character (the source only
calls this with the non-empty pattern `"hours"`; an empty pattern returns
the subject unchanged, a harmless simplification of CPython). -/
def replaceFuel (pat rep : List Char) : Nat → List Char → List Char
  | _, [] => []
  | 0, l => l
  | fuel + 1, c :: rest =>
    if pat ≠ [] ∧ pat.isPrefixOf (c :: rest) then
      rep ++ replaceFuel pat rep fuel ((c :: rest).drop pat.length)
    else c :: replaceFuel pat rep fuel rest

/-- `str.replace(pat, rep)`. -/
def pyReplace (s pat rep : String) : String :=
  ⟨replaceFuel pat.data rep.data s.data.length s.data⟩

/-- Python string `<`: lexicographic comparison by code point. -/
def charListLt : List Char → List Char → Bool
  | [], [] => false
  | [], _ :: _ => true
  | _ :: _, [] => false
  | a :: as, b :: bs =>
    if a.val < b.val then true
    else if b.val < a.val then false
    else charListLt as bs

/-- Python string `<`. -/
def pyStrLt (a b : String) : Bool := charListLt a.data b.data

/-! ## `DeltaTableInspector._detect_advanced_features` -/

/-- `config.get(key, default)` on the configuration dict. -/
def lookupD (config : List (String × String)) (k d : String) : String :=
  ((config.find? (fun p => p.1 == k)).map (·.2)).getD d

/-- The `advanced_features` report dict (fixed keys modelled as fields). -/
structure AdvancedFeatures where
  deletion_vectors : Bool
  column_mapping_enabled : Bool
  column_mapping_mode : String
  liquid_clustering : Bool
  timestamp_ntz : Bool
  check_constraints : List (String × String)
  auto_optimize_enabled : Bool
  auto_compact : Bool
  optimize_write : Bool
  data_skipping_enabled : Bool
  data_skipping_num_indexed_cols : Int
  vacuum_retention_hours : Int
  change_data_feed : Bool
deriving Repr, DecidableEq

/-- `DeltaTableInspector._detect_advanced_features`. The two `int(...)`
calls can raise `ValueError` on an unparseable configuration value; a raised
exception is the `Except.error` branch. The dict is built top to bottom, so
the `delta.dataSkippingNumIndexedCols` parse happens before the
`delta.deletedFileRetentionDuration` parse. -/
def detect_advanced_features (config : List (String × String))
    (protocol : Protocol) : Except String AdvancedFeatures :=
  let wf := protocol.writer_features.getD []
  let column_mapping_mode := lookupD config "delta.columnMapping.mode" "none"
  let auto_compact := lookupD config "delta.autoOptimize.autoCompact" "false" == "true"
  let optimize_write := lookupD config "delta.autoOptimize.optimizeWrite" "false" == "true"
  match pyInt (lookupD config "delta.dataSkippingNumIndexedCols" "32") with
  | none => .error "ValueError: invalid literal for int: delta.dataSkippingNumIndexedCols"
  | some num_indexed_cols =>
    match pyInt (pyStrip (pyReplace
        (lookupD config "delta.deletedFileRetentionDuration" "168") "hours" "")) with
    | none => .error "ValueError: invalid literal for int: delta.deletedFileRetentionDuration"
    | some retention_hours => .ok
        { deletion_vectors := wf.contains "deletionVectors"
          column_mapping_enabled := column_mapping_mode != "none"
          column_mapping_mode := column_mapping_mode
          liquid_clustering := config.any (fun p => p.1 == "clustering")
          timestamp_ntz := wf.contains "timestampNtz"
          check_constraints := config.filter (fun p => pyStartsWith p.1 "delta.constraints.")
          auto_optimize_enabled := auto_compact || optimize_write
          auto_compact := auto_compact
          optimize_write := optimize_write
          data_skipping_enabled := true
          data_skipping_num_indexed_cols := num_indexed_cols
          vacuum_retention_hours := retention_hours
          change_data_feed := lookupD config "delta.enableChangeDataFeed" "false" == "true" }

/-! ## `DeltaTableInspector._analyze_write_patterns` (timeline heuristics) -/

/-- `h.get("operationMetrics", {}).get("num_added_rows", 0)`. -/
def numAddedRows (e : CommitEntry) : Int :=
  ((e.operationMetrics.find? (fun p => p.1 == "num_added_rows")).map (·.2)).getD 0

/-- The WRITE / MERGE / UPDATE / DELETE entries of the history. -/
def writesOf (history : List CommitEntry) : List CommitEntry :=
  history.filter (fun h =>
    h.operation == some "WRITE" || h.operation == some "MERGE" ||
    h.operation == some "UPDATE" || h.operation == some "DELETE")

/-- Mean `num_added_rows` over the write operations. -/
def meanAddedRows (history : List CommitEntry) : ℚ :=
  (((writesOf history).map (fun h => (numAddedRows h : ℚ))).sum) /
    ((writesOf history).length : ℚ)

/-- `[timestamps[i] - timestamps[i+1] for i in range(len(timestamps)-1)]`. -/
def adjDiffs : List Int → List Int
  | a :: b :: rest => (a - b) :: adjDiffs (b :: rest)
  | _ => []

/-- Mean inter-commit gap among write operations, in seconds
(`sum(time_diffs) / len(time_diffs) / 1000`). -/
def meanGapSeconds (history : List CommitEntry) : ℚ :=
  let diffs := adjDiffs ((writesOf history).map (·.timestamp))
  ((diffs.map (fun d => (d : ℚ))).sum) / (diffs.length : ℚ) / 1000

/-- `DeltaTableInspector._analyze_write_patterns`. -/
def analyze_write_patterns (history : List CommitEntry) : List String :=
  let writes := writesOf history
  if writes = [] then []
  else
    let p1 :=
      if writes.length > 10 then
        if meanAddedRows history < 1000 then
          ["Small frequent writes detected (avg < 1000 rows)"]
        else []
      else []
    let p2 :=
      if (writes.map (·.timestamp)).length > 1 then
        if meanGapSeconds history < 300 then
          ["Streaming pattern: writes every few minutes"]
        else if meanGapSeconds history > 86400 then
          ["Batch pattern: writes once per day or less"]
        else []
      else []
    p1 ++ p2

/-! ## `DeltaTableAnalyzer` (`insights.py`)

Thresholds (class constants): SMALL_FILE_THRESHOLD_MB = 10,
OPTIMAL_FILE_SIZE_MB = 128, MAX_RECOMMENDED_FILES = 1000,
MIN_FILE_SIZE_VARIANCE = 0.5, VACUUM_RECOMMENDATION_DAYS = 7,
MANY_SMALL_WRITES_THRESHOLD = 10. -/

/-- The sort key `severity_order.get(x.severity, 99)` with
`severity_order = {critical: 0, warning: 1, info: 2, good: 3}`. -/
def severityRank (s : String) : Nat :=
  if s = "critical" then 0
  else if s = "warning" then 1
  else if s = "info" then 2
  else if s = "good" then 3
  else 99

/-- `file_sizes_mb = [f.size_bytes / (1024 * 1024) for f in files]`. -/
def fileSizesMb (stats : TableStatistics) : List ℚ :=
  stats.files.map (fun f => (f.size_bytes : ℚ) / (1024 * 1024))

/-- `avg_size_mb = sum(file_sizes_mb) / len(file_sizes_mb)`. -/
def avgFileSizeMb (stats : TableStatistics) : ℚ :=
  (fileSizesMb stats).sum / ((fileSizesMb stats).length : ℚ)

/-- `small_files = [s for s in file_sizes_mb if s < 10]`. -/
def smallFiles (stats : TableStatistics) : List ℚ :=
  (fileSizesMb stats).filter (fun s => s < 10)

/-- `pct_small = (len(small_files) / len(file_sizes_mb)) * 100`. -/
def pctSmall (stats : TableStatistics) : ℚ :=
  (((smallFiles stats).length : ℚ) / ((fileSizesMb stats).length : ℚ)) * 100

/-- `DeltaTableAnalyzer._analyze_file_sizes`. -/
def analyzeFileSizes (stats : TableStatistics) : List Insight :=
  if stats.files = [] then []
  else
    let part1 : List Insight :=
      if smallFiles stats ≠ [] then
        if pctSmall stats > 50 then
          [{ severity := "critical", category := "performance"
             title := "Small Files Problem Detected"
             description := "More than half of the files are smaller than 10MB. Small files severely impact query performance."
             recommendation := "Run OPTIMIZE command to compact small files. Target file size is ~128MB. Consider using Auto Optimize for future writes." }]
        else if pctSmall stats > 20 then
          [{ severity := "warning", category := "performance"
             title := "Some Small Files Detected"
             description := "A notable share of the files are smaller than 10MB."
             recommendation := "Consider running OPTIMIZE to improve performance. Monitor file sizes and run OPTIMIZE periodically." }]
        else []
      else []
    let part2 : List Insight :=
      if avgFileSizeMb stats < 128 / 2 then
        [{ severity := "warning", category := "performance"
           title := "Suboptimal Average File Size"
           description := "Average file size is much smaller than optimal (128MB)."
           recommendation := "Run OPTIMIZE to compact files to optimal size. Configure Auto Optimize for future writes." }]
      else []
    part1 ++ part2

/-- `DeltaTableAnalyzer._analyze_file_count`. -/
def analyzeFileCount (stats : TableStatistics) : List Insight :=
  if stats.num_files > 1000 then
    [{ severity := "warning", category := "performance"
       title := "High File Count"
       description := "Table has more files than the recommended maximum of ~1,000. High file count increases metadata overhead and slows queries."
       recommendation := "Run OPTIMIZE to reduce file count. Consider using Auto Optimize and adjusting partition strategy." }]
  else []

/-- `(datetime.now() - self.stats.last_vacuum).days`: whole days elapsed
(the floor of the elapsed seconds over 86400, which is how Python's
normalised `timedelta` reports `.days`), with `now` the wall-clock sample
and both datetimes in Unix seconds. -/
def daysSince (now lv : ℚ) : Int := Rat.floor ((now - lv) / 86400)

/-- `DeltaTableAnalyzer._analyze_vacuum_history`. The `datetime.now()` read
inside the source method is the explicit `now` argument. -/
def analyzeVacuumHistory (stats : TableStatistics) (now : ℚ) : List Insight :=
  match stats.last_vacuum with
  | none =>
    if stats.total_versions > 10 then
      [{ severity := "warning", category := "cost"
         title := "Table Has Never Been Vacuumed"
         description := "Table has versions but has never been vacuumed. Old data files are accumulating, increasing storage costs."
         recommendation := "Run VACUUM command to remove old data files. Set up periodic VACUUM jobs (weekly or monthly). Note: VACUUM deletes old versions permanently." }]
    else []
  | some lv =>
    if daysSince now lv > 7 * 4 then
      [{ severity := "warning", category := "cost"
         title := "Vacuum Overdue"
         description := "Last vacuum was more than 28 days ago. Old data files may be accumulating."
         recommendation := "Run VACUUM to clean up old files. Recommended vacuum frequency: every 7 days." }]
    else []

/-- Lexicographic order on the `(column, value)` pairs of a partition dict,
as Python tuple comparison orders them. -/
def pairLe (a b : String × String) : Prop :=
  (pyStrLt a.1 b.1 || (a.1 == b.1 && (pyStrLt a.2 b.2 || a.2 == b.2))) = true

instance : DecidableRel pairLe := fun a b => by
  unfold pairLe; infer_instance

/-- `str(sorted(file.partition_values.items()))`: the grouping key of a file
is its partition dict sorted by key (the `str(...)` wrapper is injective on
these sorted lists, so the sorted list itself serves as key). -/
def partitionKey (f : FileInfo) : List (String × String) :=
  f.partition_values.insertionSort pairLe

/-- The `partition_counts` dict loop: count files per partition key,
preserving dict insertion order. -/
def bumpKey (k : List (String × String)) :
    List (List (String × String) × Nat) → List (List (String × String) × Nat)
  | [] => [(k, 1)]
  | (k₀, c) :: rest => if k = k₀ then (k₀, c + 1) :: rest else (k₀, c) :: bumpKey k rest

/-- `partition_counts` built over the active files. -/
def partitionCounts (files : List FileInfo) : List (List (String × String) × Nat) :=
  files.foldl (fun acc f => bumpKey (partitionKey f) acc) []

/-- `num_partitions = len(partition_counts)`. -/
def numPartitions (stats : TableStatistics) : Nat :=
  (partitionCounts stats.files).length

/-- The evolution of the key set of `partition_counts` (used to reason
about `numPartitions`): a known key leaves the dict keys unchanged, a new
key is appended. -/
def keyStep (ks : List (List (String × String))) (f : FileInfo) :
    List (List (String × String)) :=
  if partitionKey f ∈ ks then ks else ks ++ [partitionKey f]

/-- `avg_files_per_partition = num_files / num_partitions if num_partitions > 0 else 0`. -/
def avgFilesPerPartition (stats : TableStatistics) : ℚ :=
  if numPartitions stats > 0 then
    (stats.num_files : ℚ) / (numPartitions stats : ℚ)
  else 0

/-- `DeltaTableAnalyzer._analyze_partitioning`. -/
def analyzePartitioning (stats : TableStatistics) : List Insight :=
  if stats.partition_columns = [] then
    if stats.total_size_bytes > 1024 * 1024 * 1024 * 10 then
      [{ severity := "info", category := "performance"
         title := "Table Not Partitioned"
         description := "Table is over 10GB but has no partitioning. Partitioning can improve query performance by enabling partition pruning."
         recommendation := "Consider partitioning by frequently filtered columns. Avoid over-partitioning." }]
    else []
  else
    if stats.files = [] then []
    else
      if numPartitions stats > 1000 ∧ avgFilesPerPartition stats < 5 then
        [{ severity := "warning", category := "performance"
           title := "Over-Partitioned Table"
           description := "Too many partitions with few files each creates excessive metadata overhead."
           recommendation := "Consider coarser partitioning strategy. Alternatively, use Z-ordering instead of partitioning." }]
      else if numPartitions stats < 10 ∧ avgFilesPerPartition stats > 100 then
        [{ severity := "info", category := "performance"
           title := "Under-Partitioned Table"
           description := "Only a few partitions with many files per partition on average. More granular partitioning could improve query performance."
           recommendation := "Consider finer-grained partitioning if queries frequently filter on specific columns." }]
      else []

/-- `DeltaTableAnalyzer._analyze_optimization_history`. -/
def analyzeOptimizationHistory (stats : TableStatistics) : List Insight :=
  if stats.total_versions > 20 then
    if stats.num_files > 1000 then
      [{ severity := "info", category := "maintenance"
         title := "Consider Regular Optimization"
         description := "Many versions and many files. Regular optimization can maintain performance."
         recommendation := "Set up periodic OPTIMIZE jobs (weekly or after major writes). Enable Auto Optimize for automatic compaction." }]
    else []
  else []

/-- `mean_size = sum(file_sizes) / len(file_sizes)` over raw byte sizes. -/
def meanFileSize (stats : TableStatistics) : ℚ :=
  ((stats.files.map (fun f => (f.size_bytes : ℚ))).sum) / (stats.files.length : ℚ)

/-- `variance = sum((s - mean_size) ** 2 for s in file_sizes) / len(file_sizes)`. -/
def fileSizeVariance (stats : TableStatistics) : ℚ :=
  ((stats.files.map (fun f => ((f.size_bytes : ℚ) - meanFileSize stats) ^ 2)).sum) /
    (stats.files.length : ℚ)

/-- The square of `coef_variation = std_dev / mean_size if mean_size > 0 else 0`.
The source compares `std_dev / mean > 0.5`; as both sides are nonnegative
this is equivalent to `variance / mean² > 1/4`, which stays inside ℚ
(squaring avoids the irrational `variance ** 0.5`). -/
def coefVariationSq (stats : TableStatistics) : ℚ :=
  if meanFileSize stats > 0 then fileSizeVariance stats / (meanFileSize stats) ^ 2
  else 0

/-- `DeltaTableAnalyzer._analyze_data_skew`; the guard `coef_variation > 0.5`
is the equivalent squared comparison `coefVariationSq > 1/4`. -/
def analyzeDataSkew (stats : TableStatistics) : List Insight :=
  if stats.files.length < 2 then []
  else
    if coefVariationSq stats > 1 / 4 then
      [{ severity := "warning", category := "performance"
         title := "Data Skew Detected"
         description := "High variance in file sizes detected. This indicates data skew which can cause uneven processing."
         recommendation := "Run OPTIMIZE to balance file sizes. Consider using Z-ordering or different partitioning strategy. Review data distribution in partition columns." }]
    else []

/-- `files_per_version = num_files / total_versions`. -/
def filesPerVersion (stats : TableStatistics) : ℚ :=
  (stats.num_files : ℚ) / (stats.total_versions : ℚ)

/-- `DeltaTableAnalyzer._analyze_write_patterns` (the insights-module one,
driven only by version and file counts). -/
def analyzeWritePatternsInsights (stats : TableStatistics) : List Insight :=
  if stats.total_versions > 1 then
    if filesPerVersion stats < 5 ∧ stats.total_versions > 10 then
      [{ severity := "info", category := "performance"
         title := "Many Small Writes Detected"
         description := "Many versions with few files added per write on average. Frequent small writes create many small files."
         recommendation := "Batch writes together when possible. Enable Auto Optimize to automatically compact small files. Consider using Deltas MERGE operation for incremental updates." }]
    else []
  else []

/-- The seven rule invocations of `analyze`, in source order. -/
def runRules (stats : TableStatistics) (now : ℚ) : List Insight :=
  analyzeFileSizes stats ++ analyzeFileCount stats ++
  analyzeVacuumHistory stats now ++ analyzePartitioning stats ++
  analyzeOptimizationHistory stats ++ analyzeDataSkew stats ++
  analyzeWritePatternsInsights stats

/-- The positive-feedback fallback insight. -/
def goodInsight : Insight :=
  { severity := "good", category := "performance"
    title := "Table Configuration Looks Good"
    description := "No significant configuration issues detected."
    recommendation := "Continue monitoring the table as data grows." }

/-- `any(i.severity in ["critical", "warning"] for i in insights)`. -/
def hasCriticalOrWarning (l : List Insight) : Bool :=
  l.any (fun i => i.severity == "critical" || i.severity == "warning")

/-- The fallback append step of `analyze`. -/
def withFallback (l : List Insight) : List Insight :=
  if hasCriticalOrWarning l then l else l ++ [goodInsight]

/-- The relation of the final severity sort. -/
def bySeverity (a b : Insight) : Prop :=
  severityRank a.severity ≤ severityRank b.severity

instance : DecidableRel bySeverity := fun a b => by
  unfold bySeverity; infer_instance

/-- `DeltaTableAnalyzer.analyze`: run all rules, append the fallback if no
critical/warning insight exists, stable-sort by severity rank. `now` is the
wall-clock sample read by `datetime.now()` inside the vacuum rule. -/
def analyze (stats : TableStatistics) (now : ℚ) : List Insight :=
  (withFallback (runRules stats now)).insertionSort bySeverity

/-- `∃ i ∈ l, i.title = t`: some insight with the given title was emitted. -/
def hasTitle (l : List Insight) (t : String) : Prop := ∃ i ∈ l, i.title = t

/-! ## Concrete inputs used by counterexamples, scenarios and witnesses -/

/-- A minimal protocol record. -/
def protocol0 : Protocol :=
  { min_reader_version := 1, min_writer_version := 2
    reader_features := none, writer_features := none }

/-- Statistics of an empty, never-vacuumed table. -/
def emptyTableStats : TableStatistics :=
  { table_path := "demo", version := 0, num_files := 0, total_size_bytes := 0
    schema := [], partition_columns := [], num_rows := none, files := []
    metadata_id := none, metadata_name := none, metadata_description := none
    metadata_created_time := none, total_versions := 0, oldest_version := 0
    min_reader_version := 1, min_writer_version := 2, reader_features := []
    writer_features := [], created_time := none, last_operation := none
    last_vacuum := none }

/-- The same table, last vacuumed at Unix second 0. -/
def vacuumedStats : TableStatistics :=
  { emptyTableStats with last_vacuum := some 0 }

/-- A data file sitting in partition `p = v`. -/
def partFile (v : String) : FileInfo :=
  { path := "part", size_bytes := 0, modification_time := 0
    partition_values := [("p", v)] }

/-- 1500 active files spread over 3 partitions (500 each), as in the
over-partitioning scenario. -/
def stats1500 : TableStatistics :=
  { emptyTableStats with
    num_files := 1500
    partition_columns := ["p"]
    files := List.replicate 500 (partFile "a") ++
             List.replicate 500 (partFile "b") ++
             List.replicate 500 (partFile "c") }

/-- An 11-commit history (1 overwrite + 10 appends) with no VACUUM entry. -/
def history11 : List CommitEntry :=
  (List.range 11).map (fun i =>
    { version := (i : Int), timestamp := 1000 * (i : Int)
      operation := some "WRITE", operationParameters := []
      operationMetrics := [] })

/-- The statistics the inspector derives for that 11-commit history. -/
def stats11 : TableStatistics :=
  get_statistics "demo" 10 [] none [] protocol0 history11

/-- Three files of exactly 1 MB each. -/
def smallFilesStats : TableStatistics :=
  { emptyTableStats with
    num_files := 3
    files :=
      [ { path := "a", size_bytes := 1048576, modification_time := 0, partition_values := [] }
      , { path := "b", size_bytes := 1048576, modification_time := 0, partition_values := [] }
      , { path := "c", size_bytes := 1048576, modification_time := 0, partition_values := [] } ] }

/-- Two zero-byte files (zero mean file size). -/
def zeroFilesStats : TableStatistics :=
  { emptyTableStats with
    num_files := 2
    files :=
      [ { path := "a", size_bytes := 0, modification_time := 0, partition_values := [] }
      , { path := "b", size_bytes := 0, modification_time := 0, partition_values := [] } ] }

/-- Twelve WRITE commits one minute apart, 5 rows added each (newest
first, as `DeltaTable.history()` returns them). -/
def streamHistory : List CommitEntry :=
  (List.range 12).map (fun i =>
    { version := (11 - i : Int), timestamp := 60000 * (11 - (i : Int))
      operation := some "WRITE", operationParameters := []
      operationMetrics := [("num_added_rows", 5)] })

/-! ## Theorems -/

/-- The incrementally accumulated `total_size` equals the sum of the sizes
recorded in `files_info`, and one `FileInfo` arises per add action. -/
theorem collectFiles_spec (actions : List AddAction) :
    (collectFiles actions).2 = (((collectFiles actions).1).map (·.size_bytes)).sum ∧
    ((collectFiles actions).1).length = actions.length := by
  induction actions with
  | nil => simp [collectFiles]
  | cons a rest ih =>
    simp only [collectFiles, List.map_cons, List.sum_cons, List.length_cons]
    exact ⟨by rw [ih.1], by rw [ih.2]⟩

/-- **C8.** For every `TableStatistics` value produced by `get_statistics`,
`total_size_bytes` equals the exact integer sum of `size_bytes` over the
entries of the `files` list, and `num_files` equals the length of the
`files` list. -/
theorem get_statistics_size_invariants (table_path : String) (version : Int)
    (schema : List (String × String)) (metadata : Option TableMetadata)
    (add_actions : List AddAction) (protocol : Protocol)
    (history : List CommitEntry) :
    (get_statistics table_path version schema metadata add_actions protocol
        history).total_size_bytes =
      (((get_statistics table_path version schema metadata add_actions protocol
        history).files).map (·.size_bytes)).sum ∧
    (get_statistics table_path version schema metadata add_actions protocol
        history).num_files =
      ((get_statistics table_path version schema metadata add_actions protocol
        history).files).length := by
  constructor
  · exact (collectFiles_spec add_actions).1
  · rfl

/-- **C2, counterexample.** A present-but-unparseable value for either
`delta.dataSkippingNumIndexedCols` or `delta.deletedFileRetentionDuration`
makes `_detect_advanced_features` raise (propagate `ValueError`) instead of
falling back to the documented defaults and returning a report. -/
theorem detect_advanced_features_unparseable_cex :
    (detect_advanced_features [("delta.dataSkippingNumIndexedCols", "many")]
        protocol0).isOk = false ∧
    (detect_advanced_features [("delta.deletedFileRetentionDuration", "interval 7 days")]
        protocol0).isOk = false := by
  decide

/-- **C2, amended.** The documented defaults (32 indexed columns, 168
retention hours) are used only when the configuration keys are absent; a
present but unparseable value raises instead. -/
theorem detect_advanced_features_defaults_when_absent
    (config : List (String × String)) (protocol : Protocol)
    (h1 : config.find? (fun p => p.1 == "delta.dataSkippingNumIndexedCols") = none)
    (h2 : config.find? (fun p => p.1 == "delta.deletedFileRetentionDuration") = none) :
    ∃ r, detect_advanced_features config protocol = .ok r ∧
      r.data_skipping_num_indexed_cols = 32 ∧ r.vacuum_retention_hours = 168 := by
  unfold detect_advanced_features
  have e1 : lookupD config "delta.dataSkippingNumIndexedCols" "32" = "32" := by
    simp [lookupD, h1]
  have e2 : lookupD config "delta.deletedFileRetentionDuration" "168" = "168" := by
    simp [lookupD, h2]
  rw [e1, e2]
  have p1 : pyInt "32" = some 32 := by decide
  have p2 : pyInt (pyStrip (pyReplace "168" "hours" "")) = some 168 := by decide
  rw [p1, p2]
  exact ⟨_, rfl, rfl, rfl⟩

/-- Witness for the amended C2 at the empty configuration. -/
theorem detect_advanced_features_defaults_when_absent_witness :
    (([] : List (String × String)).find?
        (fun p => p.1 == "delta.dataSkippingNumIndexedCols") = none) ∧
    (([] : List (String × String)).find?
        (fun p => p.1 == "delta.deletedFileRetentionDuration") = none) ∧
    ∃ r, detect_advanced_features [] protocol0 = .ok r ∧
      r.data_skipping_num_indexed_cols = 32 ∧ r.vacuum_retention_hours = 168 :=
  ⟨rfl, rfl, detect_advanced_features_defaults_when_absent [] protocol0 rfl rfl⟩

unseal Rat.add Rat.sub Rat.mul Rat.inv in
/-- **C1, counterexample.** `analyze` reads the wall clock inside
`_analyze_vacuum_history` (`datetime.now()`): on the same statistics value
(last vacuum at second 0) two runs at different clock instants produce
different insight lists, so the output is not a function of the statistics
alone and the days-since-vacuum computation does not derive from a
caller-supplied now. -/
theorem analyze_clock_dependent_cex :
    analyze vacuumedStats 0 ≠ analyze vacuumedStats 8640000 := by
  decide

/-- **C1, amended.** `analyze` is a deterministic pure function of the
statistics and the wall-clock sample; whenever `last_vacuum` is absent the
clock is not consulted at all, so any two runs agree. Only the
days-since-last-vacuum rule depends on the internally read clock. -/
theorem analyze_clock_independent_without_vacuum (stats : TableStatistics)
    (now₁ now₂ : ℚ) (h : stats.last_vacuum = none) :
    analyze stats now₁ = analyze stats now₂ := by
  have hv : analyzeVacuumHistory stats now₁ = analyzeVacuumHistory stats now₂ := by
    unfold analyzeVacuumHistory
    rw [h]
  unfold analyze runRules
  rw [hv]

/-- Witness for the amended C1 at an empty never-vacuumed table. -/
theorem analyze_clock_independent_without_vacuum_witness :
    emptyTableStats.last_vacuum = none ∧
    analyze emptyTableStats 0 = analyze emptyTableStats 8640000 :=
  ⟨rfl, analyze_clock_independent_without_vacuum emptyTableStats 0 8640000 rfl⟩

/-! ### Sortedness, permutation and stability of the final severity sort -/

instance : IsTotal Insight bySeverity :=
  ⟨fun a b => Nat.le_total (severityRank a.severity) (severityRank b.severity)⟩

instance : IsTrans Insight bySeverity :=
  ⟨fun _ _ _ hab hbc => Nat.le_trans hab hbc⟩

/-- Inserting into a list moves the new insight past exactly the insights
of strictly smaller severity rank, so the filter at any fixed rank gains the
new element at the front iff the element has that rank. -/
theorem filter_orderedInsert_rank (x : Insight) (l : List Insight) (c : Nat) :
    (l.orderedInsert bySeverity x).filter
        (fun i => severityRank i.severity == c) =
      if severityRank x.severity = c then
        x :: l.filter (fun i => severityRank i.severity == c)
      else l.filter (fun i => severityRank i.severity == c) := by
  induction l with
  | nil =>
    by_cases h : severityRank x.severity = c <;>
      simp [List.orderedInsert, List.filter_cons, beq_iff_eq, h]
  | cons b l ih =>
    by_cases hxb : bySeverity x b
    · by_cases h : severityRank x.severity = c <;>
        simp [List.orderedInsert, if_pos hxb, List.filter_cons, h]
    · have hlt : severityRank b.severity < severityRank x.severity := by
        simpa [bySeverity, Nat.not_le] using hxb
      by_cases h : severityRank x.severity = c
      · have hb : severityRank b.severity ≠ c := by omega
        simp [List.orderedInsert, if_neg hxb, List.filter_cons, hb, ih, h]
      · by_cases hb : severityRank b.severity = c <;>
          simp [List.orderedInsert, if_neg hxb, List.filter_cons, hb, ih, h]

/-- Stability of the severity sort: at each fixed rank the sorted list
restricts to exactly the original sublist. -/
theorem filter_insertionSort_rank (l : List Insight) (c : Nat) :
    (l.insertionSort bySeverity).filter
        (fun i => severityRank i.severity == c) =
      l.filter (fun i => severityRank i.severity == c) := by
  induction l with
  | nil => rfl
  | cons a l ih =>
    by_cases h : severityRank a.severity = c <;>
      simp [List.insertionSort, filter_orderedInsert_rank, List.filter_cons, h, ih]

/-- **C3.** For every statistics value (and clock sample), the list
returned by `analyze` is sorted by severity rank (critical=0, warning=1,
info=2, good=3) in non-decreasing order; it is a permutation of the list
the rules generated (so no insight is dropped and duplicates survive); and
the sort is stable: at each severity rank the output restricts to exactly
the generated sublist, preserving rule-evaluation order. -/
theorem analyze_sorted_stable_complete (stats : TableStatistics) (now : ℚ) :
    List.Pairwise
        (fun a b => severityRank a.severity ≤ severityRank b.severity)
        (analyze stats now) ∧
    (analyze stats now).Perm (withFallback (runRules stats now)) ∧
    ∀ c : Nat,
      (analyze stats now).filter (fun i => severityRank i.severity == c) =
        (withFallback (runRules stats now)).filter
          (fun i => severityRank i.severity == c) := by
  refine ⟨?_, ?_, ?_⟩
  · exact List.sorted_insertionSort bySeverity (withFallback (runRules stats now))
  · exact List.perm_insertionSort bySeverity (withFallback (runRules stats now))
  · exact fun c => filter_insertionSort_rank (withFallback (runRules stats now)) c

/-! ### Which titles each rule can emit, and under which conditions -/

theorem hasTitle_append (l₁ l₂ : List Insight) (t : String) :
    hasTitle (l₁ ++ l₂) t ↔ hasTitle l₁ t ∨ hasTitle l₂ t := by
  simp [hasTitle, List.mem_append, or_and_right, exists_or]

theorem hasTitle_analyzeFileSizes (stats : TableStatistics) (t : String) :
    hasTitle (analyzeFileSizes stats) t ↔
      stats.files ≠ [] ∧
        ((t = "Small Files Problem Detected" ∧ smallFiles stats ≠ [] ∧
            pctSmall stats > 50) ∨
         (t = "Some Small Files Detected" ∧ smallFiles stats ≠ [] ∧
            ¬ pctSmall stats > 50 ∧ pctSmall stats > 20) ∨
         (t = "Suboptimal Average File Size" ∧ avgFileSizeMb stats < 128 / 2)) := by
  unfold analyzeFileSizes
  split_ifs <;>
    simp_all [hasTitle_append, hasTitle, eq_comm, ← not_le]

theorem hasTitle_analyzeFileCount (stats : TableStatistics) (t : String) :
    hasTitle (analyzeFileCount stats) t ↔
      t = "High File Count" ∧ stats.num_files > 1000 := by
  unfold analyzeFileCount
  split_ifs with h <;> simp_all [hasTitle, eq_comm]

theorem hasTitle_analyzeVacuumHistory (stats : TableStatistics) (now : ℚ)
    (t : String) :
    hasTitle (analyzeVacuumHistory stats now) t ↔
      (t = "Table Has Never Been Vacuumed" ∧ stats.last_vacuum = none ∧
        stats.total_versions > 10) ∨
      (∃ lv, stats.last_vacuum = some lv ∧ t = "Vacuum Overdue" ∧
        daysSince now lv > 7 * 4) := by
  unfold analyzeVacuumHistory
  cases h : stats.last_vacuum with
  | none => split_ifs with h1 <;> simp_all [hasTitle, eq_comm]
  | some lv => split_ifs with h1 <;> simp_all [hasTitle, eq_comm] <;> aesop

theorem hasTitle_analyzePartitioning (stats : TableStatistics) (t : String) :
    hasTitle (analyzePartitioning stats) t ↔
      (stats.partition_columns = [] ∧ t = "Table Not Partitioned" ∧
        stats.total_size_bytes > 1024 * 1024 * 1024 * 10) ∨
      (stats.partition_columns ≠ [] ∧ stats.files ≠ [] ∧
        ((t = "Over-Partitioned Table" ∧ numPartitions stats > 1000 ∧
            avgFilesPerPartition stats < 5) ∨
         (t = "Under-Partitioned Table" ∧
            ¬ (numPartitions stats > 1000 ∧ avgFilesPerPartition stats < 5) ∧
            numPartitions stats < 10 ∧ avgFilesPerPartition stats > 100))) := by
  unfold analyzePartitioning
  split_ifs with h1 h2 h3 h4 h5 <;>
    simp_all [hasTitle, eq_comm]

theorem hasTitle_analyzeOptimizationHistory (stats : TableStatistics)
    (t : String) :
    hasTitle (analyzeOptimizationHistory stats) t ↔
      t = "Consider Regular Optimization" ∧ stats.total_versions > 20 ∧
        stats.num_files > 1000 := by
  unfold analyzeOptimizationHistory
  split_ifs with h1 h2 <;> simp_all [hasTitle, eq_comm]

theorem hasTitle_analyzeDataSkew (stats : TableStatistics) (t : String) :
    hasTitle (analyzeDataSkew stats) t ↔
      t = "Data Skew Detected" ∧ ¬ stats.files.length < 2 ∧
        coefVariationSq stats > 1 / 4 := by
  unfold analyzeDataSkew
  split_ifs with h1 h2 <;> simp_all [hasTitle, eq_comm]

theorem hasTitle_analyzeWritePatternsInsights (stats : TableStatistics)
    (t : String) :
    hasTitle (analyzeWritePatternsInsights stats) t ↔
      t = "Many Small Writes Detected" ∧ stats.total_versions > 1 ∧
        filesPerVersion stats < 5 ∧ stats.total_versions > 10 := by
  unfold analyzeWritePatternsInsights
  split_ifs with h1 h2 <;> simp_all [hasTitle, eq_comm]

set_option maxHeartbeats 1000000 in
/-- Membership of a title in the final `analyze` output, split over the
seven rules and the fallback. -/
theorem hasTitle_analyze_iff (stats : TableStatistics) (now : ℚ) (t : String) :
    hasTitle (analyze stats now) t ↔
      hasTitle (analyzeFileSizes stats) t ∨
      hasTitle (analyzeFileCount stats) t ∨
      hasTitle (analyzeVacuumHistory stats now) t ∨
      hasTitle (analyzePartitioning stats) t ∨
      hasTitle (analyzeOptimizationHistory stats) t ∨
      hasTitle (analyzeDataSkew stats) t ∨
      hasTitle (analyzeWritePatternsInsights stats) t ∨
      (hasCriticalOrWarning (runRules stats now) = false ∧
        t = "Table Configuration Looks Good") := by
  have hperm : hasTitle (analyze stats now) t ↔
      hasTitle (withFallback (runRules stats now)) t := by
    constructor <;> rintro ⟨i, hi, ht⟩
    · exact ⟨i, (List.perm_insertionSort bySeverity _).mem_iff.mp hi, ht⟩
    · exact ⟨i, (List.perm_insertionSort bySeverity _).mem_iff.mpr hi, ht⟩
  rw [hperm]
  by_cases hcw : hasCriticalOrWarning (runRules stats now)
  · have hw : withFallback (runRules stats now) = runRules stats now := by
      unfold withFallback; rw [if_pos hcw]
    have hf : (hasCriticalOrWarning (runRules stats now) = false) ↔ False := by
      simp [hcw]
    rw [hw, hf]
    unfold runRules
    simp only [hasTitle_append, false_and, or_false, or_assoc]
  · have hw : withFallback (runRules stats now) =
        runRules stats now ++ [goodInsight] := by
      unfold withFallback; rw [if_neg hcw]
    have hf : (hasCriticalOrWarning (runRules stats now) = false) ↔ True := by
      simp only [Bool.not_eq_true] at hcw; simp [hcw]
    have hg : hasTitle [goodInsight] t ↔
        t = "Table Configuration Looks Good" := by
      simp [hasTitle, goodInsight, eq_comm]
    rw [hw, hasTitle_append, hg, hf]
    unfold runRules
    simp only [hasTitle_append, true_and, or_assoc]

/-! ### The good-configuration fallback (C4) -/

theorem hasCriticalOrWarning_iff (l : List Insight) :
    hasCriticalOrWarning l = true ↔
      ∃ i ∈ l, i.severity = "critical" ∨ i.severity = "warning" := by
  simp [hasCriticalOrWarning, List.any_eq_true]

/-- No rule ever generates an insight titled like the fallback. -/
theorem not_hasTitle_runRules_good (stats : TableStatistics) (now : ℚ) :
    ¬ hasTitle (runRules stats now) "Table Configuration Looks Good" := by
  unfold runRules
  simp [hasTitle_append, hasTitle_analyzeFileSizes, hasTitle_analyzeFileCount,
    hasTitle_analyzeVacuumHistory, hasTitle_analyzePartitioning,
    hasTitle_analyzeOptimizationHistory, hasTitle_analyzeDataSkew,
    hasTitle_analyzeWritePatternsInsights]

/-- **C4.** The severity=good insight "Table Configuration Looks Good"
appears in the output iff no rule produced a critical or warning insight;
when it appears it appears exactly once; and it is appended as the final
step, after all rule output. -/
theorem analyze_good_fallback (stats : TableStatistics) (now : ℚ) :
    (hasTitle (analyze stats now) "Table Configuration Looks Good" ↔
      ¬ ∃ i ∈ runRules stats now,
          i.severity = "critical" ∨ i.severity = "warning") ∧
    ((analyze stats now).countP
        (fun i => i.title == "Table Configuration Looks Good") =
      if hasCriticalOrWarning (runRules stats now) then 0 else 1) ∧
    (hasCriticalOrWarning (runRules stats now) = false →
      withFallback (runRules stats now) = runRules stats now ++ [goodInsight]) := by
  refine ⟨?_, ?_, ?_⟩
  · rw [hasTitle_analyze_iff]
    have hng := not_hasTitle_runRules_good stats now
    unfold runRules at hng
    simp only [hasTitle_append, or_assoc] at hng
    push_neg at hng
    obtain ⟨n1, n2, n3, n4, n5, n6, n7⟩ := hng
    simp only [n1, n2, n3, n4, n5, n6, n7, false_or]
    rw [← hasCriticalOrWarning_iff]
    constructor
    · rintro ⟨hfalse, _⟩ htrue
      rw [htrue] at hfalse
      exact Bool.noConfusion hfalse
    · intro hn
      refine ⟨?_, trivial⟩
      cases hb : hasCriticalOrWarning (runRules stats now)
      · rfl
      · exact absurd hb hn
  · have hperm := List.perm_insertionSort bySeverity
      (withFallback (runRules stats now))
    rw [show analyze stats now =
        (withFallback (runRules stats now)).insertionSort bySeverity from rfl]
    rw [hperm.countP_eq]
    have hzero : (runRules stats now).countP
        (fun i => i.title == "Table Configuration Looks Good") = 0 := by
      rw [List.countP_eq_zero]
      intro i hi
      intro hbeq
      exact not_hasTitle_runRules_good stats now ⟨i, hi, by simpa using hbeq⟩
    unfold withFallback
    split_ifs with h
    · simpa using hzero
    · rw [List.countP_append, hzero]
      simp [goodInsight]
  · intro h
    unfold withFallback
    rw [if_neg (by simp [h])]

/-- Witness for C4 at an empty table at clock 0: no rule fires, so the
fallback is appended after the (empty) rule output. -/
theorem analyze_good_fallback_witness :
    hasCriticalOrWarning (runRules emptyTableStats 0) = false ∧
    withFallback (runRules emptyTableStats 0) =
      runRules emptyTableStats 0 ++ [goodInsight] := by
  have h : hasCriticalOrWarning (runRules emptyTableStats 0) = false := by decide
  exact ⟨h, (analyze_good_fallback emptyTableStats 0).2.2 h⟩

/-! ### File-size rules (C5) -/

theorem pctSmall_eq_zero_of_smallFiles_nil (stats : TableStatistics)
    (h : smallFiles stats = []) : pctSmall stats = 0 := by
  unfold pctSmall
  rw [h]
  simp

/-- **C5.** With a non-empty file list: the critical "Small Files Problem"
insight fires iff more than 50% of files are under 10 MB; the warning
"Some Small Files Detected" fires iff that percentage is in (20, 50]; and
independently the warning "Suboptimal Average File Size" fires iff the mean
file size is below 64 MB (half of OPTIMAL_FILE_SIZE_MB). -/
theorem analyze_file_size_rules (stats : TableStatistics) (now : ℚ)
    (hne : stats.files ≠ []) :
    (hasTitle (analyze stats now) "Small Files Problem Detected" ↔
      pctSmall stats > 50) ∧
    (hasTitle (analyze stats now) "Some Small Files Detected" ↔
      20 < pctSmall stats ∧ pctSmall stats ≤ 50) ∧
    (hasTitle (analyze stats now) "Suboptimal Average File Size" ↔
      avgFileSizeMb stats < 64) := by
  refine ⟨?_, ?_, ?_⟩
  · rw [hasTitle_analyze_iff]
    simp only [hasTitle_analyzeFileSizes, hasTitle_analyzeFileCount,
      hasTitle_analyzeVacuumHistory, hasTitle_analyzePartitioning,
      hasTitle_analyzeOptimizationHistory, hasTitle_analyzeDataSkew,
      hasTitle_analyzeWritePatternsInsights]
    simp [hne]
    intro h
    intro hnil
    rw [pctSmall_eq_zero_of_smallFiles_nil stats hnil] at h
    norm_num at h
  · rw [hasTitle_analyze_iff]
    simp only [hasTitle_analyzeFileSizes, hasTitle_analyzeFileCount,
      hasTitle_analyzeVacuumHistory, hasTitle_analyzePartitioning,
      hasTitle_analyzeOptimizationHistory, hasTitle_analyzeDataSkew,
      hasTitle_analyzeWritePatternsInsights]
    simp [hne]
    constructor
    · rintro ⟨_, hle, hgt⟩
      exact ⟨hgt, hle⟩
    · rintro ⟨hgt, hle⟩
      refine ⟨?_, hle, hgt⟩
      intro hnil
      rw [pctSmall_eq_zero_of_smallFiles_nil stats hnil] at hgt
      norm_num at hgt
  · rw [hasTitle_analyze_iff]
    simp only [hasTitle_analyzeFileSizes, hasTitle_analyzeFileCount,
      hasTitle_analyzeVacuumHistory, hasTitle_analyzePartitioning,
      hasTitle_analyzeOptimizationHistory, hasTitle_analyzeDataSkew,
      hasTitle_analyzeWritePatternsInsights]
    simp [hne]
    norm_num

/-- Witness for C5: three 1 MB files — 100% small, mean 1 MB. -/
theorem analyze_file_size_rules_witness :
    smallFilesStats.files ≠ [] ∧
    ((hasTitle (analyze smallFilesStats 0) "Small Files Problem Detected" ↔
        pctSmall smallFilesStats > 50) ∧
     (hasTitle (analyze smallFilesStats 0) "Some Small Files Detected" ↔
        20 < pctSmall smallFilesStats ∧ pctSmall smallFilesStats ≤ 50) ∧
     (hasTitle (analyze smallFilesStats 0) "Suboptimal Average File Size" ↔
        avgFileSizeMb smallFilesStats < 64)) :=
  ⟨by decide, analyze_file_size_rules smallFilesStats 0 (by decide)⟩

/-! ### Partitioning rules (C6) -/

theorem bumpKey_keys (k : List (String × String))
    (acc : List (List (String × String) × Nat)) :
    (bumpKey k acc).map (·.1) =
      if k ∈ acc.map (·.1) then acc.map (·.1) else acc.map (·.1) ++ [k] := by
  induction acc with
  | nil => simp [bumpKey]
  | cons p rest ih =>
    obtain ⟨k₀, c⟩ := p
    by_cases h : k = k₀
    · simp [bumpKey, h]
    · simp only [bumpKey, if_neg h, List.map_cons, ih]
      by_cases hm : k ∈ rest.map (·.1) <;>
        simp [hm, h]

theorem partitionCounts_keys (files : List FileInfo) :
    ∀ acc, ((files.foldl (fun a f => bumpKey (partitionKey f) a) acc).map (·.1)) =
      files.foldl keyStep (acc.map (·.1)) := by
  induction files with
  | nil => intro acc; rfl
  | cons f rest ih =>
    intro acc
    simp only [List.foldl_cons]
    rw [ih, bumpKey_keys]
    rfl

theorem numPartitions_eq (stats : TableStatistics) :
    numPartitions stats = (stats.files.foldl keyStep []).length := by
  unfold numPartitions partitionCounts
  rw [← List.length_map ((stats.files.foldl (fun a f => bumpKey (partitionKey f) a) [])) (·.1)]
  rw [partitionCounts_keys]
  rfl

theorem numPartitions_eq_zero_of_nil (stats : TableStatistics)
    (h : stats.files = []) : numPartitions stats = 0 := by
  rw [numPartitions_eq, h]
  rfl

theorem avgFilesPerPartition_eq_zero_of_nil (stats : TableStatistics)
    (h : stats.files = []) : avgFilesPerPartition stats = 0 := by
  unfold avgFilesPerPartition
  rw [numPartitions_eq_zero_of_nil stats h]
  simp

theorem keyStep_foldl_replicate_mem (f : FileInfo) (n : Nat)
    (ks : List (List (String × String))) (h : partitionKey f ∈ ks) :
    (List.replicate n f).foldl keyStep ks = ks := by
  induction n with
  | zero => rfl
  | succ n ih =>
    rw [List.replicate_succ, List.foldl_cons,
      show keyStep ks f = ks from if_pos h]
    exact ih

theorem keyStep_foldl_replicate_new (f : FileInfo) (n : Nat)
    (ks : List (List (String × String))) (h : partitionKey f ∉ ks) :
    (List.replicate (n + 1) f).foldl keyStep ks = ks ++ [partitionKey f] := by
  rw [List.replicate_succ, List.foldl_cons,
    show keyStep ks f = ks ++ [partitionKey f] from if_neg h]
  exact keyStep_foldl_replicate_mem f n _ (by simp)

/-- The 1500 files of the scenario fall into exactly 3 partitions. -/
theorem numPartitions_stats1500 : numPartitions stats1500 = 3 := by
  rw [numPartitions_eq]
  show ((List.replicate 500 (partFile "a") ++ List.replicate 500 (partFile "b") ++
      List.replicate 500 (partFile "c")).foldl keyStep []).length = 3
  rw [List.foldl_append, List.foldl_append]
  rw [show (List.replicate 500 (partFile "a")).foldl keyStep [] =
      [] ++ [partitionKey (partFile "a")] from
    keyStep_foldl_replicate_new (partFile "a") 499 [] (by decide)]
  rw [show (List.replicate 500 (partFile "b")).foldl keyStep
        ([] ++ [partitionKey (partFile "a")]) =
      ([] ++ [partitionKey (partFile "a")]) ++ [partitionKey (partFile "b")] from
    keyStep_foldl_replicate_new (partFile "b") 499 _ (by decide)]
  rw [show (List.replicate 500 (partFile "c")).foldl keyStep
        (([] ++ [partitionKey (partFile "a")]) ++ [partitionKey (partFile "b")]) =
      (([] ++ [partitionKey (partFile "a")]) ++ [partitionKey (partFile "b")]) ++
        [partitionKey (partFile "c")] from
    keyStep_foldl_replicate_new (partFile "c") 499 _ (by decide)]
  rfl

theorem not_partitioned_iff (stats : TableStatistics) (now : ℚ) :
    hasTitle (analyze stats now) "Table Not Partitioned" ↔
      stats.partition_columns = [] ∧ stats.total_size_bytes > 10737418240 := by
  rw [hasTitle_analyze_iff]
  simp only [hasTitle_analyzeFileSizes, hasTitle_analyzeFileCount,
    hasTitle_analyzeVacuumHistory, hasTitle_analyzePartitioning,
    hasTitle_analyzeOptimizationHistory, hasTitle_analyzeDataSkew,
    hasTitle_analyzeWritePatternsInsights]
  simp

theorem high_file_count_iff (stats : TableStatistics) (now : ℚ) :
    hasTitle (analyze stats now) "High File Count" ↔ stats.num_files > 1000 := by
  rw [hasTitle_analyze_iff]
  simp only [hasTitle_analyzeFileSizes, hasTitle_analyzeFileCount,
    hasTitle_analyzeVacuumHistory, hasTitle_analyzePartitioning,
    hasTitle_analyzeOptimizationHistory, hasTitle_analyzeDataSkew,
    hasTitle_analyzeWritePatternsInsights]
  simp

theorem over_partitioned_iff (stats : TableStatistics) (now : ℚ) :
    hasTitle (analyze stats now) "Over-Partitioned Table" ↔
      stats.partition_columns ≠ [] ∧ numPartitions stats > 1000 ∧
        avgFilesPerPartition stats < 5 := by
  rw [hasTitle_analyze_iff]
  simp only [hasTitle_analyzeFileSizes, hasTitle_analyzeFileCount,
    hasTitle_analyzeVacuumHistory, hasTitle_analyzePartitioning,
    hasTitle_analyzeOptimizationHistory, hasTitle_analyzeDataSkew,
    hasTitle_analyzeWritePatternsInsights]
  simp
  intro _ hnp _ h0
  rw [numPartitions_eq_zero_of_nil stats h0] at hnp
  omega

theorem under_partitioned_iff (stats : TableStatistics) (now : ℚ) :
    hasTitle (analyze stats now) "Under-Partitioned Table" ↔
      stats.partition_columns ≠ [] ∧ numPartitions stats < 10 ∧
        avgFilesPerPartition stats > 100 := by
  rw [hasTitle_analyze_iff]
  simp only [hasTitle_analyzeFileSizes, hasTitle_analyzeFileCount,
    hasTitle_analyzeVacuumHistory, hasTitle_analyzePartitioning,
    hasTitle_analyzeOptimizationHistory, hasTitle_analyzeDataSkew,
    hasTitle_analyzeWritePatternsInsights]
  simp
  intro _
  constructor
  · rintro ⟨_, _, h⟩
    exact h
  · rintro ⟨hnp, havg⟩
    refine ⟨?_, ?_, hnp, havg⟩
    · intro h0
      rw [avgFilesPerPartition_eq_zero_of_nil stats h0] at havg
      norm_num at havg
    · intro h1000
      omega

/-- **C6.** Unpartitioned tables trigger the "Table Not Partitioned" info
iff total size exceeds 10 GiB; partitioned tables (files grouped by exact
partition-value tuple) trigger "Over-Partitioned" iff partition count
exceeds 1000 with average files/partition below 5, and "Under-Partitioned"
iff partition count is below 10 with average above 100; "High File Count"
fires iff `num_files > 1000`. In particular, for 1500 files across 3
partitions the over-partition rule does not fire while High File Count
does. -/
theorem analyze_partitioning_rules (stats : TableStatistics) (now : ℚ) :
    (hasTitle (analyze stats now) "Table Not Partitioned" ↔
      stats.partition_columns = [] ∧ stats.total_size_bytes > 10737418240) ∧
    (hasTitle (analyze stats now) "Over-Partitioned Table" ↔
      stats.partition_columns ≠ [] ∧ numPartitions stats > 1000 ∧
        avgFilesPerPartition stats < 5) ∧
    (hasTitle (analyze stats now) "Under-Partitioned Table" ↔
      stats.partition_columns ≠ [] ∧ numPartitions stats < 10 ∧
        avgFilesPerPartition stats > 100) ∧
    (hasTitle (analyze stats now) "High File Count" ↔
      stats.num_files > 1000) ∧
    (numPartitions stats1500 = 3 ∧
      ¬ hasTitle (analyze stats1500 now) "Over-Partitioned Table" ∧
      hasTitle (analyze stats1500 now) "High File Count") := by
  refine ⟨not_partitioned_iff stats now, over_partitioned_iff stats now,
    under_partitioned_iff stats now, high_file_count_iff stats now,
    numPartitions_stats1500, ?_, ?_⟩
  · rw [over_partitioned_iff stats1500 now, numPartitions_stats1500]
    rintro ⟨_, h, _⟩
    omega
  · rw [high_file_count_iff stats1500 now]
    decide

/-! ### Vacuum rules (C7) -/

theorem never_vacuumed_iff (stats : TableStatistics) (now : ℚ) :
    hasTitle (analyze stats now) "Table Has Never Been Vacuumed" ↔
      stats.last_vacuum = none ∧ stats.total_versions > 10 := by
  rw [hasTitle_analyze_iff]
  simp only [hasTitle_analyzeFileSizes, hasTitle_analyzeFileCount,
    hasTitle_analyzeVacuumHistory, hasTitle_analyzePartitioning,
    hasTitle_analyzeOptimizationHistory, hasTitle_analyzeDataSkew,
    hasTitle_analyzeWritePatternsInsights]
  simp

theorem vacuum_overdue_iff (stats : TableStatistics) (now : ℚ) :
    hasTitle (analyze stats now) "Vacuum Overdue" ↔
      ∃ lv, stats.last_vacuum = some lv ∧ daysSince now lv > 28 := by
  rw [hasTitle_analyze_iff]
  simp only [hasTitle_analyzeFileSizes, hasTitle_analyzeFileCount,
    hasTitle_analyzeVacuumHistory, hasTitle_analyzePartitioning,
    hasTitle_analyzeOptimizationHistory, hasTitle_analyzeDataSkew,
    hasTitle_analyzeWritePatternsInsights]
  simp

/-- **C7.** The warning "Table Has Never Been Vacuumed" is emitted iff
`last_vacuum` is absent and `total_versions > 10`; the warning "Vacuum
Overdue" is emitted iff `last_vacuum` is present and lies more than 28
whole days (4 × VACUUM_RECOMMENDATION_DAYS) before the clock sample. In
particular, for an 11-version history containing no VACUUM entry, the
statistics carry `last_vacuum = none` and `total_versions = 11`, and the
never-vacuumed warning is emitted. -/
theorem analyze_vacuum_rules (stats : TableStatistics) (now : ℚ) :
    (hasTitle (analyze stats now) "Table Has Never Been Vacuumed" ↔
      stats.last_vacuum = none ∧ stats.total_versions > 10) ∧
    (hasTitle (analyze stats now) "Vacuum Overdue" ↔
      ∃ lv, stats.last_vacuum = some lv ∧ daysSince now lv > 28) ∧
    (stats11.last_vacuum = none ∧ stats11.total_versions = 11 ∧
      hasTitle (analyze stats11 now) "Table Has Never Been Vacuumed") := by
  refine ⟨never_vacuumed_iff stats now, vacuum_overdue_iff stats now,
    by decide, by decide, ?_⟩
  rw [never_vacuumed_iff stats11 now]
  exact ⟨by decide, by decide⟩

/-! ### Timeline write-pattern heuristics (C9) -/

/-- **C9.** With at least two write operations in the history (so that a
mean inter-commit gap exists), `_analyze_write_patterns` reports small
frequent writes iff there are more than 10 WRITE/MERGE/UPDATE/DELETE
operations with mean added-row count below 1000; a streaming pattern iff
the mean gap is below 5 minutes; and a batch pattern iff the mean gap
exceeds 1 day. -/
theorem timeline_write_patterns (history : List CommitEntry)
    (h : 2 ≤ (writesOf history).length) :
    ("Small frequent writes detected (avg < 1000 rows)" ∈
        analyze_write_patterns history ↔
      (writesOf history).length > 10 ∧ meanAddedRows history < 1000) ∧
    ("Streaming pattern: writes every few minutes" ∈
        analyze_write_patterns history ↔ meanGapSeconds history < 300) ∧
    ("Batch pattern: writes once per day or less" ∈
        analyze_write_patterns history ↔ meanGapSeconds history > 86400) := by
  have hne : ¬ (writesOf history = []) := by
    intro h0
    rw [h0] at h
    simp at h
  unfold analyze_write_patterns
  rw [if_neg hne]
  have hlen : ((writesOf history).map (·.timestamp)).length > 1 := by
    rw [List.length_map]
    omega
  split_ifs <;> simp_all <;> linarith

/-- Witness for C9: twelve one-minute-apart WRITE commits of 5 rows. -/
theorem timeline_write_patterns_witness :
    2 ≤ (writesOf streamHistory).length ∧
    (("Small frequent writes detected (avg < 1000 rows)" ∈
        analyze_write_patterns streamHistory ↔
      (writesOf streamHistory).length > 10 ∧ meanAddedRows streamHistory < 1000) ∧
    ("Streaming pattern: writes every few minutes" ∈
        analyze_write_patterns streamHistory ↔
      meanGapSeconds streamHistory < 300) ∧
    ("Batch pattern: writes once per day or less" ∈
        analyze_write_patterns streamHistory ↔
      meanGapSeconds streamHistory > 86400)) :=
  ⟨by decide, timeline_write_patterns streamHistory (by decide)⟩

/-! ### Zero-mean guard of the data-skew rule (C10) -/

/-- **C10.** With at least two files all of size zero, the mean file size
is zero, the guarded coefficient of variation evaluates to 0 (the source
guards the `std_dev / mean_size` division with `if mean_size > 0 else 0`),
and no "Data Skew Detected" insight is emitted. -/
theorem analyze_zero_mean_no_skew (stats : TableStatistics) (now : ℚ)
    (h2 : 2 ≤ stats.files.length)
    (hz : ∀ f ∈ stats.files, f.size_bytes = 0) :
    coefVariationSq stats = 0 ∧
    ¬ hasTitle (analyze stats now) "Data Skew Detected" := by
  have hmean : meanFileSize stats = 0 := by
    unfold meanFileSize
    have hsum : (stats.files.map (fun f => ((f.size_bytes : ℚ)))).sum = 0 := by
      apply List.sum_eq_zero
      intro x hx
      simp only [List.mem_map] at hx
      obtain ⟨f, hf, rfl⟩ := hx
      rw [hz f hf]
      norm_num
    rw [hsum]
    simp
  have hcv : coefVariationSq stats = 0 := by
    unfold coefVariationSq
    rw [hmean]
    simp
  refine ⟨hcv, ?_⟩
  rw [hasTitle_analyze_iff]
  simp only [hasTitle_analyzeFileSizes, hasTitle_analyzeFileCount,
    hasTitle_analyzeVacuumHistory, hasTitle_analyzePartitioning,
    hasTitle_analyzeOptimizationHistory, hasTitle_analyzeDataSkew,
    hasTitle_analyzeWritePatternsInsights]
  simp [hcv]

/-- Witness for C10: two zero-byte files. -/
theorem analyze_zero_mean_no_skew_witness :
    2 ≤ zeroFilesStats.files.length ∧
    (∀ f ∈ zeroFilesStats.files, f.size_bytes = 0) ∧
    (coefVariationSq zeroFilesStats = 0 ∧
      ¬ hasTitle (analyze zeroFilesStats 0) "Data Skew Detected") :=
  ⟨by decide, by decide,
    analyze_zero_mean_no_skew zeroFilesStats 0 (by decide) (by decide)⟩

end Deltective
